import Mathlib

/-
Verification development for the nvim-sys repository.

Shallow embedding of the two source files:
  * src/lib.rs  — a MessagePack codec (`ToMsgpack` / `FromMsgpack` impls over
    the `rmp` primitives) and the opaque handle types Buffer / Window / Tabpage;
  * build.rs    — the stub generator: it parses the manifest (`Root`), parses
    type-name tokens (`TypeNameVisitor::visit_str`), and writes the generated
    source text (`write_version`, `write_functions`).

Byte streams are `List Nat` with every element below 256.  Rust machine
integers are modelled as `Int` (i64, i8) or `Nat` (u8..u64) with explicit
`% 2^w` where the source wraps.  Fallible Rust code returns an explicit
result type; a Rust panic (`todo!()`, `unwrap()` on `Err`) is modelled by a
distinguished `panic` outcome so that "the code panics here" is a provable
statement, never hidden behind a default value.
-/

namespace NvimSys

/-! ## Big-endian byte helpers (u16/u32/u64 `to_be_bytes` / `from_be_bytes`) -/

/-- Big-endian bytes of `n`, exactly `w` bytes (most significant first),
mirroring Rust's `to_be_bytes` after truncation to `w` bytes. -/
def natToBE : Nat → Nat → List Nat
  | 0, _ => []
  | w + 1, n => (n / 256 ^ w % 256) :: natToBE w n

/-- Accumulator form of the big-endian value of a byte list. -/
def beToNatAux (acc : Nat) : List Nat → Nat
  | [] => acc
  | b :: bs => beToNatAux (acc * 256 + b) bs

/-- The big-endian value of a byte list (`from_be_bytes`). -/
def beToNat (bs : List Nat) : Nat := beToNatAux 0 bs

/-- Two's-complement reading of a `bits`-wide unsigned value, i.e. the effect
of Rust's `as i8` / `as i64` casts from the same-width unsigned type. -/
def twosComplement (bits n : Nat) : Int :=
  if n < 2 ^ (bits - 1) then (n : Int) else (n : Int) - 2 ^ bits

/-! ## rmp markers (`rmp::Marker` and its `From<u8>` instance) -/

/-- The MessagePack marker alphabet, as in `rmp::Marker`.  The boolean
markers are named `boolTrue` / `boolFalse` for `Marker::True` / `Marker::False`. -/
inductive Marker where
  | fixPos (n : Nat)
  | fixMap (n : Nat)
  | fixArray (n : Nat)
  | fixStr (n : Nat)
  | null
  | reserved
  | boolFalse
  | boolTrue
  | bin8 | bin16 | bin32
  | ext8 | ext16 | ext32
  | f32 | f64
  | u8 | u16 | u32 | u64
  | i8 | i16 | i32 | i64
  | fixExt1 | fixExt2 | fixExt4 | fixExt8 | fixExt16
  | str8 | str16 | str32
  | array16 | array32
  | map16 | map32
  | fixNeg (n : Int)
deriving DecidableEq, Repr

/-- Decode a single marker byte, as in `impl From<u8> for Marker`. -/
def markerFromByte (b : Nat) : Marker :=
  if b ≤ 0x7f then .fixPos b
  else if b ≤ 0x8f then .fixMap (b - 0x80)
  else if b ≤ 0x9f then .fixArray (b - 0x90)
  else if b ≤ 0xbf then .fixStr (b - 0xa0)
  else if b = 0xc0 then .null
  else if b = 0xc1 then .reserved
  else if b = 0xc2 then .boolFalse
  else if b = 0xc3 then .boolTrue
  else if b = 0xc4 then .bin8
  else if b = 0xc5 then .bin16
  else if b = 0xc6 then .bin32
  else if b = 0xc7 then .ext8
  else if b = 0xc8 then .ext16
  else if b = 0xc9 then .ext32
  else if b = 0xca then .f32
  else if b = 0xcb then .f64
  else if b = 0xcc then .u8
  else if b = 0xcd then .u16
  else if b = 0xce then .u32
  else if b = 0xcf then .u64
  else if b = 0xd0 then .i8
  else if b = 0xd1 then .i16
  else if b = 0xd2 then .i32
  else if b = 0xd3 then .i64
  else if b = 0xd4 then .fixExt1
  else if b = 0xd5 then .fixExt2
  else if b = 0xd6 then .fixExt4
  else if b = 0xd7 then .fixExt8
  else if b = 0xd8 then .fixExt16
  else if b = 0xd9 then .str8
  else if b = 0xda then .str16
  else if b = 0xdb then .str32
  else if b = 0xdc then .array16
  else if b = 0xdd then .array32
  else if b = 0xde then .map16
  else if b = 0xdf then .map32
  else .fixNeg ((b : Int) - 256)

/-! ## Error model (`FromMsgpackError` in src/lib.rs) -/

/-- `BasicTypeKind` from src/lib.rs, the expected-category tag in mismatch
errors. -/
inductive BasicTypeKind where
  | nil | boolean | integer | float | string | array | dictionary | object
deriving DecidableEq, Repr

/-- `FromMsgpackError` from src/lib.rs.  `valueRead` stands for a short read
inside an rmp numeric-payload primitive, `markerRead` for a short read of the
marker byte, `io` for a short read in the crate's own `read_exact` helpers,
`stringUtf8` for invalid UTF-8, and `marker` for a category mismatch carrying
the expected category and the observed marker. -/
inductive FromMsgpackError where
  | valueRead
  | markerRead
  | io
  | stringUtf8
  | marker (expected : BasicTypeKind) (actual : Marker)
deriving DecidableEq, Repr

/-- Outcome of running a decoder on a byte stream: success with the remaining
stream, an error value, or a Rust panic (`todo!()` in the source). -/
inductive DecodeResult (α : Type) where
  | ok (value : α) (rest : List Nat)
  | err (e : FromMsgpackError)
  | panic
deriving DecidableEq, Repr

/-! ## Stream reading primitives -/

/-- `rmp::decode::read_marker`: read one byte and classify it. -/
def readMarker : List Nat → DecodeResult Marker
  | [] => .err .markerRead
  | b :: bs => .ok (markerFromByte b) bs

/-- Read exactly `n` bytes (`read_exact`): `none` models a short read. -/
def readBytes : Nat → List Nat → Option (List Nat × List Nat)
  | 0, bs => some ([], bs)
  | _ + 1, [] => none
  | n + 1, b :: bs => (readBytes n bs).map fun p => (b :: p.1, p.2)

/-- rmp `read_u8` / `read_u16` / `read_u32` / `read_u64` followed by the
Rust widening cast `as i64` (the payloads fit, so no wrap for w ≤ 4). -/
def readUnsignedAsI64 (w : Nat) (bs : List Nat) : DecodeResult Int :=
  match readBytes w bs with
  | none => .err .valueRead
  | some (xs, rest) => .ok ((beToNat xs : Nat) : Int) rest

/-- rmp `read_i8` / `read_i16` / `read_i32` / `read_i64` followed by `as i64`:
the `8*w` payload bytes are interpreted in two's complement. -/
def readSignedAsI64 (w : Nat) (bs : List Nat) : DecodeResult Int :=
  match readBytes w bs with
  | none => .err .valueRead
  | some (xs, rest) => .ok (twosComplement (8 * w) (beToNat xs)) rest

/-! ## Integer codec (src/lib.rs `impl ToMsgpack for i64` / `impl FromMsgpack for i64`) -/

/-- `rmp::encode::write_sint`: the most compact wire form for an i64 value,
matched in the same order as the rmp source. -/
def write_sint (val : Int) : List Nat :=
  if -32 ≤ val ∧ val < 0 then [((val + 256 : Int)).toNat]
  else if -128 ≤ val ∧ val < -32 then [0xd0, ((val + 256 : Int)).toNat]
  else if -32768 ≤ val ∧ val < -128 then 0xd1 :: natToBE 2 (((val + 2 ^ 16 : Int)).toNat)
  else if -2147483648 ≤ val ∧ val < -32768 then 0xd2 :: natToBE 4 (((val + 2 ^ 32 : Int)).toNat)
  else if val < -2147483648 then 0xd3 :: natToBE 8 (((val % 2 ^ 64 : Int)).toNat)
  else if 0 ≤ val ∧ val < 128 then [val.toNat]
  else if val < 256 then [0xcc, val.toNat]
  else if val < 65536 then 0xcd :: natToBE 2 val.toNat
  else if val < 4294967296 then 0xce :: natToBE 4 val.toNat
  else 0xcf :: natToBE 8 val.toNat

/-- `impl FromMsgpack for i64` in src/lib.rs: dispatch on the marker; the
eight numeric-width markers are handled, anything else is a category
mismatch.  The `u64` arm is `read_u64(r)? as i64`, a two's-complement wrap. -/
def decodeI64 (bs : List Nat) : DecodeResult Int :=
  match readMarker bs with
  | .err e => .err e
  | .panic => .panic
  | .ok m rest =>
    match m with
    | .u8 => readUnsignedAsI64 1 rest
    | .u16 => readUnsignedAsI64 2 rest
    | .u32 => readUnsignedAsI64 4 rest
    | .u64 => readSignedAsI64 8 rest
    | .i8 => readSignedAsI64 1 rest
    | .i16 => readSignedAsI64 2 rest
    | .i32 => readSignedAsI64 4 rest
    | .i64 => readSignedAsI64 8 rest
    | m => .err (.marker .integer m)

/-! ## Handle types and their encoders (src/lib.rs) -/

/-- `rmp::encode::write_ext_meta`: marker chosen by the payload length, then
the extension type byte (`ty as u8`). -/
def write_ext_meta (len : Nat) (ty : Int) : List Nat :=
  (if len = 1 then [0xd4]
   else if len = 2 then [0xd5]
   else if len = 4 then [0xd6]
   else if len = 8 then [0xd7]
   else if len = 16 then [0xd8]
   else if len < 256 then [0xc7, len]
   else if len < 65536 then 0xc8 :: natToBE 2 len
   else 0xc9 :: natToBE 4 len) ++ [((ty % 256 : Int)).toNat]

/-- `write_special_type` in src/lib.rs: extension meta for 8 payload bytes
under `type_id`, then the full 8 big-endian bytes of the i64 payload. -/
def write_special_type (type_id data : Int) : List Nat :=
  write_ext_meta 8 type_id ++ natToBE 8 (((data % 2 ^ 64 : Int)).toNat)

/-- `Buffer` handle from src/lib.rs. -/
structure Buffer where
  bufnr : Int
deriving DecidableEq, Repr

/-- `Buffer::TYPE_ID`. -/
def Buffer.TYPE_ID : Int := 0

/-- `impl ToMsgpack for Buffer`. -/
def Buffer.toMsgpack (b : Buffer) : List Nat :=
  write_special_type Buffer.TYPE_ID b.bufnr

/-- `Window` handle from src/lib.rs. -/
structure Window where
  window_id : Int
deriving DecidableEq, Repr

/-- `Window::TYPE_ID`. -/
def Window.TYPE_ID : Int := 1

/-- `impl ToMsgpack for Window`. -/
def Window.toMsgpack (w : Window) : List Nat :=
  write_special_type Window.TYPE_ID w.window_id

/-- `Tabpage` handle from src/lib.rs. -/
structure Tabpage where
  handle : Int
deriving DecidableEq, Repr

/-- `Tabpage::TYPE_ID`. -/
def Tabpage.TYPE_ID : Int := 2

/-- `impl ToMsgpack for Tabpage`. -/
def Tabpage.toMsgpack (t : Tabpage) : List Nat :=
  write_special_type Tabpage.TYPE_ID t.handle

/-- `impl FromMsgpack for Buffer` in src/lib.rs: every extension marker arm
is `todo!()`, modelled as `panic`; any other marker is a category mismatch. -/
def decodeBuffer (bs : List Nat) : DecodeResult Buffer :=
  match readMarker bs with
  | .err e => .err e
  | .panic => .panic
  | .ok m _ =>
    match m with
    | .fixExt1 => .panic
    | .fixExt2 => .panic
    | .fixExt4 => .panic
    | .fixExt8 => .panic
    | .fixExt16 => .panic
    | .ext8 => .panic
    | .ext16 => .panic
    | .ext32 => .panic
    | m => .err (.marker .object m)

/-! ## Manifest data model (build.rs deserialization targets) -/

/-- `TypeName` from build.rs: the output of the type-grammar parser. -/
inductive TypeName where
  | fixedArray (size : Int) (type_name : String)
  | dynamicArray (type_name : String)
  | other (type_name : String)
deriving DecidableEq, Repr

/-- `Parameter` from build.rs: a (type-name, name) pair from the manifest. -/
structure Parameter where
  type_name : TypeName
  name : String
deriving DecidableEq, Repr

/-- `Function` from build.rs: one manifest function descriptor. -/
structure Function where
  method : Bool
  name : String
  parameters : List Parameter
  return_type : TypeName
  since : Int
  deprecated_since : Option Int
deriving DecidableEq, Repr

/-- `UiEvent` from build.rs. -/
structure UiEvent where
  name : String
  parameters : List Parameter
  since : Int
deriving DecidableEq, Repr

/-- `Version` from build.rs (identical field list to the one in src/lib.rs). -/
structure Version where
  api_compatible : Int
  api_level : Int
  api_prerelease : Bool
  major : Int
  minor : Int
  patch : Int
  prerelease : Bool
deriving DecidableEq, Repr

/-- `Root` from build.rs: the decoded manifest.  The Rust `HashMap` tables
`error_types` and `types` are carried as association lists; the generator
never iterates them, so their order is irrelevant to every theorem below. -/
structure Root where
  version : Version
  error_types : List (String × Int)
  types : List (String × Int × String)
  functions : List Function
  ui_options : List String
  ui_events : List UiEvent

/-! ## Type-grammar parser (build.rs `TypeNameVisitor::visit_str`) -/

/-- Rust `str::parse::<i64>` on a string of ASCII digits (as produced by the
`take_while(is_ascii_digit)` in `visit_str`): fails on the empty string and
on overflow past `i64::MAX`; the caller `unwrap`s the result. -/
def parseI64Digits (digits : List Char) : Option Int :=
  if digits.isEmpty then none
  else
    let n : Nat := digits.foldl (fun acc c => acc * 10 + (c.toNat - 48)) 0
    if n ≤ 2 ^ 63 - 1 then some (n : Int) else none

/-- Rust `xs.chars().zip(ys.chars()).all(|(a, b)| a == b)`: the zip stops at
the shorter sequence, so this is vacuously true when either side runs out. -/
def zipAllEq (xs ys : List Char) : Bool :=
  (xs.zip ys).all fun p => p.1 == p.2

/-- `TypeNameVisitor::visit_str` from build.rs, applied to one manifest
type-name token.  `none` models the Rust panic at `size.parse().unwrap()`;
every other path returns a `TypeName`.  The byte-length comparison uses
`String.utf8ByteSize`, matching Rust's `str::len`. -/
def visitStr (v : String) : Option TypeName :=
  let PF : String := "ArrayOf("
  let SEP : String := ", "
  let is_array :=
    zipAllEq v.data PF.data && decide (v.utf8ByteSize > PF.utf8ByteSize)
  if is_array then
    let type_name : List Char := (v.data.drop PF.data.length).takeWhile fun c => c.isAlpha
    let is_fixed :=
      zipAllEq (v.data.drop (PF.data.length + type_name.length)) SEP.data
    if is_fixed then
      let sizeStr : List Char :=
        (v.data.drop (PF.data.length + type_name.length + SEP.data.length)).takeWhile
          fun c => c.isDigit
      match parseI64Digits sizeStr with
      | none => none
      | some size => some (.fixedArray size (String.mk type_name))
    else
      some (.dynamicArray (String.mk type_name))
  else
    some (.other v)

/-! ## Stub generator (build.rs `write_functions` / `write_version`) -/

/-- `map_parameter_type_name` from build.rs. -/
def map_parameter_type_name (type_name : String) : String :=
  match type_name with
  | "Boolean" => "bool"
  | "Integer" => "i64"
  | "Float" => "f64"
  | "String" => "&str"
  | "Object" => "BasicType"
  | _ => type_name

/-- `map_return_type_name` from build.rs: for the `"Object"` category the
result is chosen by comparing the first 6/7/6 characters of the function
name against `"window"` / `"tabpage"` / `"buffer"` (Rust
`chars().take(n).eq(...)`, false when the name is shorter). -/
def map_return_type_name (type_name function_name : String) : String :=
  match type_name with
  | "Boolean" => "bool"
  | "Integer" => "i64"
  | "Float" => "f64"
  | "Object" =>
    if function_name.data.take 6 = "window".data then "Window"
    else if function_name.data.take 7 = "tabpage".data then "Tabpage"
    else if function_name.data.take 6 = "buffer".data then "Buffer"
    else "BasicType"
  | _ => type_name

/-- `snake_to_camel` from build.rs.  The Rust code uses the Unicode
`char::to_uppercase`; manifest option strings are ASCII `snake_case`, where
it agrees with `Char.toUpper`.  Note: `main` never calls this function. -/
def snake_to_camel (s : String) : String :=
  String.mk <| (s.splitOn "_").flatMap fun part =>
    match part.data with
    | [] => []
    | c :: cs => c.toUpper :: cs

/-- The parameter-name match in `write_functions`: `"fn"` and `"type"` are
emitted as raw identifiers, every other name verbatim. -/
def renderParamName (s : String) : String :=
  match s with
  | "fn" => "r#fn"
  | "type" => "r#type"
  | other => other

/-- One parameter's text in a stub: `"{name}: "`, the mapped type, `", "`. -/
def renderParameter (p : Parameter) : String :=
  renderParamName p.name ++ ": " ++
  (match p.type_name with
   | .fixedArray size tn =>
     "[" ++ map_parameter_type_name tn ++ "; " ++ toString size ++ "]"
   | .dynamicArray tn =>
     "impl Iterator<Item = " ++ map_parameter_type_name tn ++ ">"
   | .other tn => map_parameter_type_name tn) ++ ", "

/-- The return-type text of a stub (the `match &function.return_type` in
`write_functions`); `"void"` emits nothing. -/
def renderReturn (return_type : TypeName) (function_name : String) : String :=
  match return_type with
  | .fixedArray size tn =>
    "-> [" ++ map_return_type_name tn function_name ++ "; " ++ toString size ++ "]"
  | .dynamicArray tn =>
    "-> Vec<" ++ map_return_type_name tn function_name ++ ">"
  | .other tn =>
    match tn with
    | "void" => ""
    | _ => "-> " ++ map_return_type_name tn function_name

/-- The literal stub body written after the signature. -/
def stubBody : String :=
  "\x7b \n                todo!()\n            \x7d\n"

/-- Text of one emitted stub for a function (the per-function writes in
`write_functions`). -/
def renderFunction (f : Function) : String :=
  "#[allow(unused)] pub async fn " ++ f.name ++ "(neovim: &mut impl Neovim, " ++
  String.join (f.parameters.map renderParameter) ++ ") " ++
  renderReturn f.return_type f.name ++ stubBody

/-- The closure inside the skip test of `write_functions`:
`match &p.type_name { TypeName::Other(t) => t == "LuaRef", _ => false }`. -/
def isLuaRef (t : TypeName) : Bool :=
  match t with
  | .other tn => tn == "LuaRef"
  | _ => false

/-- The skip test in `write_functions`: does any parameter's type name parse
to the scalar `LuaRef` category? -/
def hasLuaRefParam (f : Function) : Bool :=
  f.parameters.any fun p => isLuaRef p.type_name

/-- The loop of `write_functions`: when the `LuaRef` skip fires the iteration
writes nothing (`continue`), otherwise it writes the function's stub. -/
def writeFunctionsBody : List Function → String
  | [] => ""
  | f :: rest =>
    if hasLuaRefParam f then writeFunctionsBody rest
    else renderFunction f ++ writeFunctionsBody rest

/-- Concatenation of a list of strings (specification-side helper used to
state what the generator loop emits). -/
def concatAll (l : List String) : String := l.foldr (· ++ ·) ""

/-- The module header literal in `write_functions`. -/
def functionsHeader : String :=
  "pub mod functions \x7b\n        use super::\x7bBuffer, Window, Tabpage, Array, BasicType, Dictionary, Neovim\x7d;"

/-- `write_functions` from build.rs: header, one stub per non-skipped
function, closing brace. -/
def write_functions (functions : List Function) : String :=
  functionsHeader ++ writeFunctionsBody functions ++ "\x7d"

/-- Rust `bool` `Display`. -/
def boolStr (b : Bool) : String := if b then "true" else "false"

/-- `write_version` from build.rs: the `impl Version` constant block. -/
def write_version (v : Version) : String :=
  "\n        impl Version \x7b\n            pub const CURRENT: Self = Self \x7b\n                api_compatible: " ++
  toString v.api_compatible ++
  ",\n                api_level: " ++ toString v.api_level ++
  ",\n                api_prerelease: " ++ boolStr v.api_prerelease ++
  ",\n                major: " ++ toString v.major ++
  ",\n                minor: " ++ toString v.minor ++
  ",\n                patch: " ++ toString v.patch ++
  ",\n                prerelease: " ++ boolStr v.prerelease ++
  ",\n            \x7d;\n        \x7d"

/-- The output-producing part of `main` in build.rs: the generated file is
`write_version` followed by `write_functions`; no other manifest field is
read. -/
def generate (root : Root) : String :=
  write_version root.version ++ write_functions root.functions

/-! ## Helper lemmas -/

theorem natToBE_length (w n : Nat) : (natToBE w n).length = w := by
  induction w generalizing n with
  | zero => rfl
  | succ w ih => simp [natToBE, ih]

theorem readBytes_exact (xs r : List Nat) :
    readBytes xs.length (xs ++ r) = some (xs, r) := by
  induction xs with
  | nil => rfl
  | cons b bs ih => simp [readBytes, ih]

theorem byte_split (p n : Nat) (hp : 0 < p) :
    n / p % 256 * p + n % p = n % (p * 256) := by
  have h1 : n = p * 256 * (n / p / 256) + (p * (n / p % 256) + n % p) := by
    have d1 := Nat.div_add_mod n p
    have d2 := Nat.div_add_mod (n / p) 256
    calc n = p * (n / p) + n % p := d1.symm
    _ = p * (256 * (n / p / 256) + n / p % 256) + n % p := by rw [d2]
    _ = p * 256 * (n / p / 256) + (p * (n / p % 256) + n % p) := by ring
  have h2 : p * (n / p % 256) + n % p < p * 256 := by
    have hm : n / p % 256 < 256 := Nat.mod_lt _ (by norm_num)
    have hr : n % p < p := Nat.mod_lt _ hp
    calc p * (n / p % 256) + n % p < p * (n / p % 256) + p := by omega
    _ = p * (n / p % 256 + 1) := by ring
    _ ≤ p * 256 := Nat.mul_le_mul_left p (by omega)
  calc n / p % 256 * p + n % p = p * (n / p % 256) + n % p := by ring
  _ = (p * (n / p % 256) + n % p) % (p * 256) := (Nat.mod_eq_of_lt h2).symm
  _ = (p * 256 * (n / p / 256) + (p * (n / p % 256) + n % p)) % (p * 256) := by
      rw [Nat.mul_add_mod]
  _ = n % (p * 256) := by rw [← h1]

theorem beToNatAux_natToBE (w acc n : Nat) :
    beToNatAux acc (natToBE w n) = acc * 256 ^ w + n % 256 ^ w := by
  induction w generalizing acc with
  | zero => simp [natToBE, beToNatAux, Nat.mod_one]
  | succ w ih =>
    have key := byte_split (256 ^ w) n (Nat.pos_pow_of_pos w (by norm_num))
    calc beToNatAux acc (natToBE (w + 1) n)
        = beToNatAux (acc * 256 + n / 256 ^ w % 256) (natToBE w n) := rfl
    _ = (acc * 256 + n / 256 ^ w % 256) * 256 ^ w + n % 256 ^ w := ih _
    _ = acc * 256 ^ (w + 1) + (n / 256 ^ w % 256 * 256 ^ w + n % 256 ^ w) := by ring
    _ = acc * 256 ^ (w + 1) + n % 256 ^ (w + 1) := by rw [key, ← pow_succ]

theorem beToNat_natToBE (w n : Nat) (h : n < 256 ^ w) :
    beToNat (natToBE w n) = n := by
  have := beToNatAux_natToBE w 0 n
  simpa [beToNat, Nat.mod_eq_of_lt h] using this

theorem beToNat_natToBE8 (n : Nat) (h : n < 2 ^ 64) :
    beToNat (natToBE 8 n) = n :=
  beToNat_natToBE 8 n (by norm_num at h ⊢; omega)

/-! ## Claim theorems: codec -/

/-- C1: the round-trip property `decode(encode(v)) == v` fails on the code at
the integer value 0 (and at every value the encoder emits as a fixint):
`write_sint 0` emits the positive-fixint byte `0x00`, and the i64 decoder has
no `FixPos` arm, so it returns a category-mismatch error instead of `Ok(0)`. -/
theorem c1_integer_roundtrip_fails_at_zero :
    write_sint 0 = [0x00] ∧
    decodeI64 (write_sint 0) =
      .err (.marker .integer (.fixPos 0)) := by
  exact ⟨rfl, rfl⟩

/-- C3: decoding a handle from a truncated stream does not fail with a
transport error — it panics.  The byte `0xd7` is a strict prefix of the valid
encoding of `Buffer { bufnr: 0 }` (shown explicitly), and `FromMsgpack for
Buffer` hits `todo!()` on the `FixExt8` marker. -/
theorem c3_truncated_handle_decode_panics :
    Buffer.toMsgpack ⟨0⟩ = [0xd7, 0, 0, 0, 0, 0, 0, 0, 0, 0] ∧
    decodeBuffer ((Buffer.toMsgpack ⟨0⟩).take 1) = .panic := by
  exact ⟨rfl, rfl⟩

/-- C8: for every 64-bit payload and every handle kind, the encoder writes the
`FixExt8` marker `0xd7`, the kind's fixed type tag (0 / 1 / 2), and then
exactly 8 payload bytes whose big-endian value is the payload (two's
complement, i.e. mod 2^64) — never a shorter or variable-width form. -/
theorem write_special_type_shape (tid d : Int) :
    (write_special_type tid d).take 2 = [0xd7, ((tid % 256 : Int)).toNat] ∧
    ((write_special_type tid d).drop 2).length = 8 ∧
    (beToNat ((write_special_type tid d).drop 2) : Int) = d % 2 ^ 64 := by
  have hnn : 0 ≤ d % (2 ^ 64 : Int) := Int.emod_nonneg d (by norm_num)
  have hlt : d % (2 ^ 64 : Int) < 2 ^ 64 := Int.emod_lt_of_pos d (by norm_num)
  have hm : ((d % (2 ^ 64 : Int)).toNat) < 2 ^ 64 := by omega
  have h : write_special_type tid d =
      0xd7 :: ((tid % 256 : Int)).toNat :: natToBE 8 ((d % (2 ^ 64 : Int)).toNat) := rfl
  refine ⟨?_, ?_, ?_⟩
  · rw [h]
    rfl
  · rw [h]
    exact natToBE_length 8 _
  · rw [h]
    show (beToNat (natToBE 8 ((d % (2 ^ 64 : Int)).toNat)) : Int) = d % 2 ^ 64
    rw [beToNat_natToBE8 _ hm]
    omega

theorem c8_handle_encoding_fixed_width (d : Int) :
    (Buffer.toMsgpack ⟨d⟩).take 2 = [0xd7, 0] ∧
    ((Buffer.toMsgpack ⟨d⟩).drop 2).length = 8 ∧
    (beToNat ((Buffer.toMsgpack ⟨d⟩).drop 2) : Int) = d % 2 ^ 64 ∧
    (Window.toMsgpack ⟨d⟩).take 2 = [0xd7, 1] ∧
    ((Window.toMsgpack ⟨d⟩).drop 2).length = 8 ∧
    (beToNat ((Window.toMsgpack ⟨d⟩).drop 2) : Int) = d % 2 ^ 64 ∧
    (Tabpage.toMsgpack ⟨d⟩).take 2 = [0xd7, 2] ∧
    ((Tabpage.toMsgpack ⟨d⟩).drop 2).length = 8 ∧
    (beToNat ((Tabpage.toMsgpack ⟨d⟩).drop 2) : Int) = d % 2 ^ 64 := by
  obtain ⟨b1, b2, b3⟩ := write_special_type_shape Buffer.TYPE_ID d
  obtain ⟨w1, w2, w3⟩ := write_special_type_shape Window.TYPE_ID d
  obtain ⟨t1, t2, t3⟩ := write_special_type_shape Tabpage.TYPE_ID d
  exact ⟨b1, b2, b3, w1, w2, w3, t1, t2, t3⟩

/-- C9: a wire integer under the unsigned-64-bit marker `0xcf` whose payload
exceeds `i64::MAX` decodes successfully to the payload's two's-complement
reinterpretation as a negative signed 64-bit integer (the `read_u64 as i64`
cast), rather than failing or saturating. -/
theorem c9_u64_overflow_wraps (u : Nat) (h1 : 2 ^ 63 ≤ u) (h2 : u < 2 ^ 64) :
    decodeI64 (0xcf :: natToBE 8 u) = .ok ((u : Int) - 2 ^ 64) [] := by
  have h0 : decodeI64 (0xcf :: natToBE 8 u) = readSignedAsI64 8 (natToBE 8 u) := rfl
  rw [h0]
  unfold readSignedAsI64
  have hl : readBytes 8 (natToBE 8 u) = some (natToBE 8 u, []) := by
    have h := readBytes_exact (natToBE 8 u) []
    rwa [natToBE_length, List.append_nil] at h
  rw [hl]
  show DecodeResult.ok (twosComplement (8 * 8) (beToNat (natToBE 8 u))) [] =
    DecodeResult.ok ((u : Int) - 2 ^ 64) []
  rw [beToNat_natToBE8 u h2]
  unfold twosComplement
  rw [if_neg (not_lt.mpr h1)]

/-- Witness for C9: the all-ones payload `2^64 - 1` decodes to `-1`. -/
theorem c9_u64_overflow_wraps_witness :
    decodeI64 (0xcf :: natToBE 8 (2 ^ 64 - 1)) =
      .ok (((2 ^ 64 - 1 : Nat) : Int) - 2 ^ 64) [] :=
  c9_u64_overflow_wraps (2 ^ 64 - 1) (by norm_num) (by norm_num)

/-! ## Claim theorems: type-grammar parser and stub generator -/

/-- C2: the type-grammar parser does not fail explicitly on malformed or
truncated tokens.  The unterminated token `"ArrayOf("` is silently accepted
as the scalar type name `Other("ArrayOf(")`, and the unterminated token
`"ArrayOf(Elem"` panics (`none` models the `size.parse().unwrap()` panic on
an empty digit string) instead of returning an error. -/
theorem c2_parser_accepts_or_panics_on_truncated_tokens :
    visitStr "ArrayOf(" = some (.other "ArrayOf(") ∧
    visitStr "ArrayOf(Elem" = none := by
  exact ⟨rfl, rfl⟩

/-- C4: the generated output contains no UI-option enumerant at all: the
output of the generator is entirely independent of the manifest's
`ui_options` list, so no enumerant (and no reverse mapping) is emitted for
any raw option string. -/
theorem c4_ui_options_have_no_effect_on_output (root : Root) (opts : List String) :
    generate { root with ui_options := opts } = generate root := rfl

theorem writeFunctionsBody_eq (fs : List Function) :
    writeFunctionsBody fs =
      concatAll ((fs.filter fun f => !hasLuaRefParam f).map renderFunction) := by
  induction fs with
  | nil => rfl
  | cons f fs ih =>
    by_cases h : hasLuaRefParam f
    · simp [writeFunctionsBody, h, List.filter_cons, ih]
    · simp [writeFunctionsBody, h, List.filter_cons, concatAll, ih]

theorem isLuaRef_iff (t : TypeName) : isLuaRef t = true ↔ t = .other "LuaRef" := by
  cases t <;> simp [isLuaRef]

/-- C6: a function with any parameter of the scalar `LuaRef` type-name
category contributes nothing to the generated module (the `continue` in
`write_functions`), and every other function contributes exactly its one
stub, in manifest order; generation itself never fails (the embedding is a
total function). -/
theorem c6_luaref_functions_skipped :
    (∀ fs : List Function,
      write_functions fs =
        functionsHeader ++
          concatAll ((fs.filter fun f => !hasLuaRefParam f).map renderFunction) ++
          "\x7d") ∧
    (∀ f : Function,
      hasLuaRefParam f = true ↔ ∃ p ∈ f.parameters, p.type_name = .other "LuaRef") := by
  constructor
  · intro fs
    unfold write_functions
    rw [writeFunctionsBody_eq]
  · intro f
    simp [hasLuaRefParam, List.any_eq_true, isLuaRef_iff]

/-- C7: the generated source text is a deterministic function of the decoded
manifest: it depends only on the `version` and `functions` fields (both of
which deserialize deterministically from the manifest bytes), and in
particular not on the iteration order of the `HashMap` tables `error_types`
and `types`, which the generator never iterates. -/
theorem c7_output_determined_by_version_and_functions
    (r1 r2 : Root) (hv : r1.version = r2.version) (hf : r1.functions = r2.functions) :
    generate r1 = generate r2 := by
  unfold generate write_functions
  rw [hv, hf]

/-- Witness for C7: two manifests equal on `version` and `functions` but
different everywhere else generate identical output. -/
theorem c7_output_determined_witness :
    generate ⟨⟨0, 1, false, 0, 11, 2, true⟩, [("a", 1)], [("Buffer", 0, "nvim_buf_")],
        [], ["ext_cmdline"], []⟩ =
      generate ⟨⟨0, 1, false, 0, 11, 2, true⟩, [], [], [], [], []⟩ :=
  c7_output_determined_by_version_and_functions _ _ rfl rfl

/-- C5: a stub whose manifest return type-name is `"Object"` gets its
rendered return type from the function name's prefix: names beginning with
`window` / `tabpage` / `buffer` return the corresponding handle type, and
any name beginning with none of the three returns the dynamic `BasicType`;
in particular `window_get_cursor` yields `-> Window` and `nvim_get_mode`
yields `-> BasicType`. -/
theorem c5_object_return_dispatched_by_name :
    (∀ rest : List Char,
      renderReturn (.other "Object") (String.mk ("window".data ++ rest)) = "-> Window" ∧
      renderReturn (.other "Object") (String.mk ("tabpage".data ++ rest)) = "-> Tabpage" ∧
      renderReturn (.other "Object") (String.mk ("buffer".data ++ rest)) = "-> Buffer") ∧
    (∀ name : String,
      (∀ r, name.data ≠ "window".data ++ r) →
      (∀ r, name.data ≠ "tabpage".data ++ r) →
      (∀ r, name.data ≠ "buffer".data ++ r) →
      renderReturn (.other "Object") name = "-> BasicType") ∧
    renderReturn (.other "Object") "window_get_cursor" = "-> Window" ∧
    renderReturn (.other "Object") "nvim_get_mode" = "-> BasicType" := by
  refine ⟨fun rest => ⟨rfl, rfl, rfl⟩, ?_, rfl, rfl⟩
  intro name h1 h2 h3
  have e : renderReturn (.other "Object") name =
      "-> " ++ map_return_type_name "Object" name := rfl
  have em : map_return_type_name "Object" name =
      if name.data.take 6 = "window".data then "Window"
      else if name.data.take 7 = "tabpage".data then "Tabpage"
      else if name.data.take 6 = "buffer".data then "Buffer"
      else "BasicType" := rfl
  have hw : ¬(name.data.take 6 = "window".data) := fun h =>
    h1 (name.data.drop 6) (by rw [← h]; exact (List.take_append_drop 6 name.data).symm)
  have ht : ¬(name.data.take 7 = "tabpage".data) := fun h =>
    h2 (name.data.drop 7) (by rw [← h]; exact (List.take_append_drop 7 name.data).symm)
  have hb : ¬(name.data.take 6 = "buffer".data) := fun h =>
    h3 (name.data.drop 6) (by rw [← h]; exact (List.take_append_drop 6 name.data).symm)
  rw [e, em, if_neg hw, if_neg ht, if_neg hb]
  rfl

/-- Witness for C5: the default arm at the concrete name `nvim_get_mode`. -/
theorem c5_object_return_dispatched_witness :
    renderReturn (.other "Object") "nvim_get_mode" = "-> BasicType" :=
  c5_object_return_dispatched_by_name.2.1 "nvim_get_mode"
    (fun r hr => by injection hr with h _; exact absurd h (by decide))
    (fun r hr => by injection hr with h _; exact absurd h (by decide))
    (fun r hr => by injection hr with h _; exact absurd h (by decide))

/-- C10: the stub generator renders the parameter names `fn` and `type` as
the raw identifiers `r#fn` and `r#type`, and every other parameter name
verbatim (the match at the top of the parameter loop in `write_functions`,
used by `renderParameter`). -/
theorem c10_reserved_parameter_names_rawified :
    renderParamName "fn" = "r#fn" ∧
    renderParamName "type" = "r#type" ∧
    ∀ s : String, s ≠ "fn" → s ≠ "type" → renderParamName s = s := by
  refine ⟨rfl, rfl, ?_⟩
  intro s hfn hty
  unfold renderParamName
  split <;> simp_all

/-- Witness for C10: an ordinary parameter name is emitted verbatim. -/
theorem c10_reserved_parameter_names_witness :
    renderParamName "count" = "count" :=
  c10_reserved_parameter_names_rawified.2.2 "count" (by decide) (by decide)

end NvimSys
